import Mathlib

/-!
Shallow embedding of the papyrusplusplus core (configuration resolution,
option flattening, marker synthesis) together with theorems settling the
frozen claims about it.

The repository carries two generations of code: a legacy generation
(`src/main.py`, `src/papyruslib/bases.py`, `src/papyruslib/helpers/...`)
and a newer pydantic-based generation (`src/papyruslib/__main__.py`,
`src/papyruslib/components/...`).  Each definition below names the source
function it embeds.
-/

namespace Papyrus

/-- Python exception classes that the embedded code can raise. -/
inductive PyErr where
  | keyError : PyErr
  | attributeError : PyErr
  | assertionError : PyErr
  | valueError : PyErr
  | indexError : PyErr
  | exn : String → PyErr
  deriving Repr, DecidableEq

/-- A Python number as it arrives from JSON / the Sheets API: either an
`int` or a `float`.  Floats are modelled as rationals (every JSON float
literal denotes a rational). -/
inductive PyNum where
  | int : Int → PyNum
  | float : Rat → PyNum
  deriving Repr, DecidableEq

/-- Scalar Python values appearing in option structures (YAML scalars). -/
inductive PyVal where
  | none : PyVal
  | bool : Bool → PyVal
  | int : Int → PyVal
  | str : String → PyVal
  deriving Repr, DecidableEq

/-- Python `str()` of a scalar value. -/
def PyVal.pyStr : PyVal → String
  | .none => "None"
  | .bool true => "True"
  | .bool false => "False"
  | .int n => toString n
  | .str s => s

/-- The test `any(v is c for c in [None, False, True])` from
`iterable_to_options` (src/papyruslib/bases.py:246): an identity check
against exactly the singletons `None`, `False`, `True`. -/
def PyVal.isNoneOrBool : PyVal → Bool
  | .none => true
  | .bool _ => true
  | _ => false

/-- An option structure: an ordered mapping or a sequence
(`_optionstype = Union[list, dict]`, src/papyruslib/bases.py:17).  An
ordered mapping is an association list of (key, value) pairs in
iteration order; keys are unique but nothing below depends on that. -/
inductive OptStruct where
  | map : List (PyVal × PyVal) → OptStruct
  | seq : List PyVal → OptStruct
  deriving Repr, DecidableEq

/-- Embeds `iterable_to_options` (src/papyruslib/bases.py:241-249).
The mapping branch mirrors the Python loop: an accumulator list `olist`
to which each key string is appended, followed by the value string
unless the value is identically `None`, `False` or `True`; the sequence
branch is the comprehension `[str(v) for v in obj]`. -/
def iterable_to_options (obj : OptStruct) : List String :=
  match obj with
  | .map es =>
      es.foldl
        (fun olist kv =>
          let olist := olist ++ [kv.1.pyStr]
          if kv.2.isNoneOrBool then olist else olist ++ [kv.2.pyStr])
        []
  | .seq vs => vs.map PyVal.pyStr

/-- The per-entry token list of the mapping branch of
`iterable_to_options`: the key string, then the value string unless the
value is `None`/`False`/`True`. -/
def entryTokens (kv : PyVal × PyVal) : List String :=
  kv.1.pyStr :: (if kv.2.isNoneOrBool then [] else [kv.2.pyStr])

/-!
MD5 (RFC 1321), used by `PlayerMarker` via `hashlib.md5`.  Words are
natural numbers reduced modulo `2 ^ 32`.
-/

/-- Reduce modulo `2 ^ 32`. -/
def mask32 (x : Nat) : Nat := x % 4294967296

/-- Bitwise complement on 32 bits. -/
def bnot32 (x : Nat) : Nat := Nat.xor x 4294967295

/-- Left rotation of a 32-bit word by `s` places (`0 ≤ s ≤ 31`). -/
def rotl32 (x s : Nat) : Nat := (x % 2 ^ (32 - s)) * 2 ^ s + x / 2 ^ (32 - s)

/-- MD5 per-round shift amounts. -/
def md5S : List Nat :=
  [7, 12, 17, 22, 7, 12, 17, 22, 7, 12, 17, 22, 7, 12, 17, 22,
   5, 9, 14, 20, 5, 9, 14, 20, 5, 9, 14, 20, 5, 9, 14, 20,
   4, 11, 16, 23, 4, 11, 16, 23, 4, 11, 16, 23, 4, 11, 16, 23,
   6, 10, 15, 21, 6, 10, 15, 21, 6, 10, 15, 21, 6, 10, 15, 21]

/-- MD5 sine-derived round constants. -/
def md5K : List Nat :=
  [0xd76aa478, 0xe8c7b756, 0x242070db, 0xc1bdceee,
   0xf57c0faf, 0x4787c62a, 0xa8304613, 0xfd469501,
   0x698098d8, 0x8b44f7af, 0xffff5bb1, 0x895cd7be,
   0x6b901122, 0xfd987193, 0xa679438e, 0x49b40821,
   0xf61e2562, 0xc040b340, 0x265e5a51, 0xe9b6c7aa,
   0xd62f105d, 0x02441453, 0xd8a1e681, 0xe7d3fbc8,
   0x21e1cde6, 0xc33707d6, 0xf4d50d87, 0x455a14ed,
   0xa9e3e905, 0xfcefa3f8, 0x676f02d9, 0x8d2a4c8a,
   0xfffa3942, 0x8771f681, 0x6d9d6122, 0xfde5380c,
   0xa4beea44, 0x4bdecfa9, 0xf6bb4b60, 0xbebfbc70,
   0x289b7ec6, 0xeaa127fa, 0xd4ef3085, 0x04881d05,
   0xd9d4d039, 0xe6db99e5, 0x1fa27cf8, 0xc4ac5665,
   0xf4292244, 0x432aff97, 0xab9423a7, 0xfc93a039,
   0x655b59c3, 0x8f0ccc92, 0xffeff47d, 0x85845dd1,
   0x6fa87e4f, 0xfe2ce6e0, 0xa3014314, 0x4e0811a1,
   0xf7537e82, 0xbd3af235, 0x2ad7d2bb, 0xeb86d391]

/-- Little-endian 32-bit word `j` of a 64-byte chunk. -/
def leWord (chunk : List Nat) (j : Nat) : Nat :=
  chunk.getD (4 * j) 0 + 256 * chunk.getD (4 * j + 1) 0
    + 65536 * chunk.getD (4 * j + 2) 0 + 16777216 * chunk.getD (4 * j + 3) 0

/-- The four 32-bit registers of the MD5 state. -/
structure MD5State where
  a : Nat
  b : Nat
  c : Nat
  d : Nat
  deriving Repr, DecidableEq

/-- The round function and message-word index for operation `i`. -/
def md5F (i : Nat) (st : MD5State) : Nat × Nat :=
  if i < 16 then
    (Nat.lor (Nat.land st.b st.c) (Nat.land (bnot32 st.b) st.d), i)
  else if i < 32 then
    (Nat.lor (Nat.land st.d st.b) (Nat.land (bnot32 st.d) st.c), (5 * i + 1) % 16)
  else if i < 48 then
    (Nat.xor (Nat.xor st.b st.c) st.d, (3 * i + 5) % 16)
  else
    (Nat.xor st.c (Nat.lor st.b (bnot32 st.d)), (7 * i) % 16)

/-- One MD5 operation on the state. -/
def md5Op (chunk : List Nat) (st : MD5State) (i : Nat) : MD5State :=
  let fg := md5F i st
  let f := mask32 (fg.1 + st.a + md5K.getD i 0 + leWord chunk fg.2)
  { a := st.d, b := mask32 (st.b + rotl32 f (md5S.getD i 0)), c := st.b, d := st.c }

/-- Process one 64-byte chunk. -/
def md5Chunk (st : MD5State) (chunk : List Nat) : MD5State :=
  let e := (List.range 64).foldl (md5Op chunk) st
  { a := mask32 (st.a + e.a), b := mask32 (st.b + e.b),
    c := mask32 (st.c + e.c), d := mask32 (st.d + e.d) }

/-- Split a byte list into chunks of 64. -/
def chunks64 (l : List Nat) : List (List Nat) :=
  if h : l = [] then []
  else
    have : (l.drop 64).length < l.length := by
      rw [List.length_drop]
      exact Nat.sub_lt (List.length_pos.mpr h) (by norm_num)
    l.take 64 :: chunks64 (l.drop 64)
termination_by l.length

/-- MD5 padding: append `0x80`, zero bytes up to 56 mod 64, then the
bit length as an 8-byte little-endian integer. -/
def md5Pad (msg : List Nat) : List Nat :=
  let lenBits := 8 * msg.length
  let zeros := (119 - msg.length % 64) % 64
  msg ++ [0x80] ++ List.replicate zeros 0
    ++ (List.range 8).map (fun j => lenBits / 2 ^ (8 * j) % 256)

/-- Little-endian byte serialization of a 32-bit word. -/
def leBytes (w : Nat) : List Nat :=
  [w % 256, w / 256 % 256, w / 65536 % 256, w / 16777216 % 256]

/-- The 16-byte MD5 digest of a byte string. -/
def md5Digest (msg : List Nat) : List Nat :=
  let f := (chunks64 (md5Pad msg)).foldl md5Chunk
    { a := 0x67452301, b := 0xefcdab89, c := 0x98badcfe, d := 0x10325476 }
  leBytes f.a ++ leBytes f.b ++ leBytes f.c ++ leBytes f.d

/-- Lowercase hex digit for `n < 16`. -/
def hexDigitChar (n : Nat) : Char :=
  if n < 10 then Char.ofNat (48 + n) else Char.ofNat (87 + n)

/-- Two lowercase hex digits of a byte. -/
def byteHex (b : Nat) : String :=
  String.mk [hexDigitChar (b / 16), hexDigitChar (b % 16)]

/-- Lowercase hex string of a byte list. -/
def hexOfBytes (bs : List Nat) : String := String.join (bs.map byteHex)

/-- UTF-8 encoding of one code point. -/
def utf8EncodeCharNat (c : Char) : List Nat :=
  let n := c.toNat
  if n < 0x80 then [n]
  else if n < 0x800 then [0xC0 + n / 64, 0x80 + n % 64]
  else if n < 0x10000 then
    [0xE0 + n / 4096, 0x80 + n / 64 % 64, 0x80 + n % 64]
  else
    [0xF0 + n / 262144, 0x80 + n / 4096 % 64, 0x80 + n / 64 % 64, 0x80 + n % 64]

/-- UTF-8 encoding of a string, as a byte list
(Python `s.encode("utf-8")`). -/
def utf8Bytes (s : String) : List Nat := s.data.flatMap utf8EncodeCharNat

/-- Python `md5(s.encode("utf-8")).hexdigest()`. -/
def md5HexOfString (s : String) : String := hexOfBytes (md5Digest (utf8Bytes s))

/-- Python `int(md5(s.encode("utf-8")).hexdigest(), 16)`: the digest
read as a big-endian integer. -/
def md5NatOfString (s : String) : Nat :=
  (md5Digest (utf8Bytes s)).foldl (fun acc b => acc * 256 + b) 0

/-- `str(UUID(hex32))` for a 32-digit lowercase hex string: the canonical
8-4-4-4-12 dashed form (src/papyruslib/bases.py:148). -/
def uuidStrOfHex (h : String) : String :=
  h.take 8 ++ "-" ++ (h.drop 8).take 4 ++ "-" ++ (h.drop 12).take 4
    ++ "-" ++ (h.drop 16).take 4 ++ "-" ++ h.drop 20

/-- A point-of-interest marker (class `PlayerMarker`,
src/papyruslib/bases.py:98-148).  The source initializes `uuid` to a
random `uuid4()` string; the randomness is outside a pure embedding, so
the constructor below leaves it empty and every theorem that reads the
hash assumes a truthy (non-empty) name, under which the `uuid` fallback
of `_hash` is dead code. -/
structure PlayerMarker where
  uuid : String := ""
  name : Option String := none
  dimensionId : Int := 0
  position : PyNum × PyNum × PyNum := (.int 0, .int 0, .int 0)
  color : String := "#ffffff"
  visible : Bool := true
  deriving Repr, DecidableEq

/-- The palette `PlayerMarker.DEFAULT_COLORS`
(src/papyruslib/bases.py:106-123): 12 entries; the commented-out
near-black/near-white/gray entries are absent. -/
def DEFAULT_COLORS : List String :=
  ["#0000AA", "#00AA00", "#00AAAA", "#AA0000", "#AA00AA", "#FFAA00",
   "#5555FF", "#55FF55", "#55FFFF", "#FF5555", "#FF55FF", "#FFFF55"]

/-- The argument of the `_hash` property: `self.name or self.uuid`
(src/papyruslib/bases.py:127).  Python `or` takes the name unless it is
`None` or empty, in which case it falls back to the stored uuid. -/
def PlayerMarker.hashSource (m : PlayerMarker) : String :=
  match m.name with
  | some n => if n = "" then m.uuid else n
  | none => m.uuid

/-- The `_hash` property: `md5((self.name or self.uuid).encode("utf-8")).hexdigest()`. -/
def PlayerMarker.hashHex (m : PlayerMarker) : String :=
  md5HexOfString m.hashSource

/-- Embeds `PlayerMarker.set_color` (src/papyruslib/bases.py:141-145):
a `None` color is replaced by
`DEFAULT_COLORS[int(self._hash, 16) % len(DEFAULT_COLORS)]`. -/
def PlayerMarker.set_color (m : PlayerMarker) (color : Option String) : PlayerMarker :=
  let c :=
    match color with
    | some c => c
    | none => DEFAULT_COLORS.getD (md5NatOfString m.hashSource % DEFAULT_COLORS.length) ""
  { m with color := c }

/-- Embeds `PlayerMarker.set_uuid_from_name` (src/papyruslib/bases.py:147-148):
`self.uuid = str(UUID(self._hash))`. -/
def PlayerMarker.set_uuid_from_name (m : PlayerMarker) : PlayerMarker :=
  { m with uuid := uuidStrOfHex m.hashHex }

/-!
Configuration model: tagged extension blocks, the per-category registry
tables, and `Definition`.
-/

/-- A raw tagged configuration block: the `type` discriminant (modelled
as `none` when the key is absent) plus the remaining key/value entries.
Python truthiness of the underlying dict is non-emptiness. -/
structure TaggedBlock where
  tag : Option String := none
  extra : List (String × PyVal) := []
  deriving Repr, DecidableEq

/-- Truthiness of a block: the backing dict is non-empty. -/
def TaggedBlock.truthy (b : TaggedBlock) : Bool :=
  b.tag.isSome || !b.extra.isEmpty

/-- A parsed `Definition` (src/papyruslib/bases.py:252-302): the backing
dict, one optional field per recognized key (`none` models an absent
key). -/
structure Definition where
  name : Option String := none
  world : Option String := none
  dest : Option String := none
  defaultoptions : Option OptStruct := none
  tasks : Option (List OptStruct) := none
  spreadsheet : Option TaggedBlock := none
  remote : Option TaggedBlock := none
  webhook : Option TaggedBlock := none
  deriving Repr, DecidableEq

/-- Truthiness of a `Definition` (a `DictObject`): `len(self._data) > 0`,
i.e. at least one key is present. -/
def Definition.truthy (d : Definition) : Bool :=
  d.name.isSome || d.world.isSome || d.dest.isSome || d.defaultoptions.isSome
    || d.tasks.isSome || d.spreadsheet.isSome || d.remote.isSome || d.webhook.isSome

/-- A resolved extension instance: the registered variant tag it was
dispatched to, the raw block, and the non-owning back-reference to the
owning `Definition` passed as `parent=self` at construction. -/
structure ResolvedExt where
  variantTag : String
  data : TaggedBlock
  parent : Option Definition
  deriving Repr, DecidableEq

/-- Embeds the `__new__` dispatch shared by `Spreadsheet`, `Remote` and
`Webhook` (src/papyruslib/bases.py:174-182, 202-210, 225-233):
`data["type"]` is looked up in the class `specs` table; an absent `type`
key raises `KeyError`, an unregistered tag raises
`Exception("Cannot find type ...")`. -/
def resolveTagged (specs : List String) (data : TaggedBlock)
    (parent : Option Definition) : Except PyErr ResolvedExt :=
  match data.tag with
  | none => .error .keyError
  | some t =>
      if t ∈ specs then .ok { variantTag := t, data := data, parent := parent }
      else .error (.exn ("Cannot find type " ++ t))

/-- The three per-category registry tables (`Spreadsheet.specs`,
`Remote.specs`, `Webhook.specs`), each listing its registered tags. -/
structure RegistryTables where
  sheets : List String := []
  remotes : List String := []
  webhooks : List String := []
  deriving Repr, DecidableEq

/-- Embeds the body of the `Definition.spreadsheet` property
(src/papyruslib/bases.py:277-280):
`Spreadsheet(self["spreadsheet"], parent=self) if self.get("spreadsheet") else None`.
An absent or falsy (empty) block yields `None`. -/
def constructSpreadsheet (specs : List String) (d : Definition) :
    Except PyErr (Option ResolvedExt) :=
  match d.spreadsheet with
  | some b => if b.truthy then (resolveTagged specs b (some d)).map some else .ok none
  | none => .ok none

/-- Embeds the body of the `Definition.remote` property
(src/papyruslib/bases.py:284-287). -/
def constructRemote (specs : List String) (d : Definition) :
    Except PyErr (Option ResolvedExt) :=
  match d.remote with
  | some b => if b.truthy then (resolveTagged specs b (some d)).map some else .ok none
  | none => .ok none

/-- Embeds the body of the `Definition.webhook` property
(src/papyruslib/bases.py:291-294). -/
def constructWebhook (specs : List String) (d : Definition) :
    Except PyErr (Option ResolvedExt) :=
  match d.webhook with
  | some b => if b.truthy then (resolveTagged specs b (some d)).map some else .ok none
  | none => .ok none

/-- The `functools.cache` state of the three lazily-resolved properties
of one `Definition`: `none` means the getter has not yet completed
successfully. -/
structure DefCache where
  spreadsheet : Option (Option ResolvedExt) := none
  remote : Option (Option ResolvedExt) := none
  webhook : Option (Option ResolvedExt) := none
  deriving Repr, DecidableEq

/-- Semantics of one access to a `@property @cache` getter: a filled
cache slot is returned without running the body (third component
`false`); otherwise the body runs (third component `true`) and a
successful result is stored.  `functools.cache` does not cache a body
that raised. -/
def cachedGet (body : Except PyErr (Option ResolvedExt))
    (slot : Option (Option ResolvedExt)) :
    Except PyErr (Option ResolvedExt) × Option (Option ResolvedExt) × Bool :=
  match slot with
  | some v => (.ok v, some v, false)
  | none =>
      match body with
      | .ok v => (.ok v, some v, true)
      | .error e => (.error e, none, true)

/-- One access to `defi.spreadsheet` with its memo state. -/
def Definition.getSpreadsheet (tables : RegistryTables) (d : Definition)
    (c : DefCache) :
    Except PyErr (Option ResolvedExt) × DefCache × Bool :=
  let r := cachedGet (constructSpreadsheet tables.sheets d) c.spreadsheet
  (r.1, { c with spreadsheet := r.2.1 }, r.2.2)

/-- One access to `defi.remote` with its memo state. -/
def Definition.getRemote (tables : RegistryTables) (d : Definition)
    (c : DefCache) :
    Except PyErr (Option ResolvedExt) × DefCache × Bool :=
  let r := cachedGet (constructRemote tables.remotes d) c.remote
  (r.1, { c with remote := r.2.1 }, r.2.2)

/-- One access to `defi.webhook` with its memo state. -/
def Definition.getWebhook (tables : RegistryTables) (d : Definition)
    (c : DefCache) :
    Except PyErr (Option ResolvedExt) × DefCache × Bool :=
  let r := cachedGet (constructWebhook tables.webhooks d) c.webhook
  (r.1, { c with webhook := r.2.1 }, r.2.2)

/-- Embeds `Definition.string_commands` (src/papyruslib/bases.py:270-273).
The `world` and `dest` properties read `self["world"]` / `self["dest"]`
(`KeyError` when absent), `self.get("defaultoptions", {})` defaults to
an empty mapping, and `self["tasks"]` raises `KeyError` when absent. -/
def Definition.string_commands (d : Definition) :
    Except PyErr (List (List String)) := do
  let w ← match d.world with
    | some w => pure w
    | none => throw PyErr.keyError
  let dst ← match d.dest with
    | some x => pure x
    | none => throw PyErr.keyError
  let start := ["--world", w, "--output", dst]
    ++ iterable_to_options (d.defaultoptions.getD (.map []))
  let ts ← match d.tasks with
    | some ts => pure ts
    | none => throw PyErr.keyError
  return ts.map (fun op => start ++ iterable_to_options op)

/-!
Context resolution in extension operations.  The operations cited by the
spec all begin with `defi = self._parent or defi` followed by
`assert defi` (src/papyruslib/bases.py:190-191,
src/papyruslib/helpers/rsync.py:26-27 and 41-42,
src/papyruslib/helpers/gsheets.py:48-49).
-/

/-- Python `a or b` on two optional `Definition` values: `None` and a
falsy (empty) `Definition` both fall through to the right operand. -/
def pyOrDef (a b : Option Definition) : Option Definition :=
  match a with
  | some x => if x.truthy then some x else b
  | none => b

/-- Embeds `defi = self._parent or defi; assert defi`: the back-reference
is taken first; the combined value must be truthy or `AssertionError`
is raised. -/
def resolveContext (parent explicit : Option Definition) :
    Except PyErr Definition :=
  match pyOrDef parent explicit with
  | some d => if d.truthy then .ok d else .error .assertionError
  | none => .error .assertionError

/-- The file path written by `Spreadsheet.write_playermarkers`
(src/papyruslib/bases.py:189-196): `defi.dest / "map" / "playersData.js"`
for the context chosen by `resolveContext`.  The `dest` property raises
`KeyError` when the key is absent. -/
def write_playermarkers_path (parent explicit : Option Definition) :
    Except PyErr String := do
  let d ← resolveContext parent explicit
  match d.dest with
  | some dst => pure (dst ++ "/map/playersData.js")
  | none => throw PyErr.keyError

/-- The configuration fields of an `RsyncRemote`
(src/papyruslib/helpers/rsync.py:8-10) together with its back-reference. -/
structure RsyncRemoteData where
  ip : String
  path : String
  parent : Option Definition := none
  deriving Repr, DecidableEq

/-- Embeds `RsyncRemote._make_command` (src/papyruslib/helpers/rsync.py:12-22). -/
def rsync_make_command (r : RsyncRemoteData) (path : String)
    (destsuffix : String := "") : List String :=
  ["rsync",
   "--rsync-path", "mkdir -p \"" ++ r.path ++ "\" && rsync",
   "-azrlt",
   "--delete",
   path,
   r.ip ++ ":" ++ r.path ++ "/" ++ destsuffix]

/-- Embeds `RsyncRemote.upload` (src/papyruslib/helpers/rsync.py:24-37)
up to its subprocess boundary: the argument vector handed to
`subprocess.run`.  `Path(defi.dest).absolute()` resolves against the
process working directory, a filesystem boundary; the path is modelled
textually as the stored `dest` joined with `map`, keeping the trailing
slash of `"{}/".format(...)`. -/
def rsync_upload_command (r : RsyncRemoteData) (explicit : Option Definition) :
    Except PyErr (List String) := do
  let d ← resolveContext r.parent explicit
  let dst ← match d.dest with
    | some dst => pure dst
    | none => throw PyErr.keyError
  pure (rsync_make_command r (dst ++ "/map/"))

/-!
The command/notification pipeline of `main` (src/main.py:135-235),
traced at its external boundaries.  Subprocesses and network calls are
recorded as events; the external renderer is modelled as exiting
successfully (no claim concerns a failing renderer).
-/

/-- Externally visible steps of `main` for one run. -/
inductive Event where
  | runTask : List String → Event
  | warnNoTasks : Event
  | setMarkers : Event
  | upload : Event
  | push : Event
  deriving Repr, DecidableEq

/-- Embeds `Definition._cache_all` (src/papyruslib/bases.py:300-302):
evaluate the three lazily-resolved properties, in field order, for the
caching side effect only. -/
def Definition.cache_all (tables : RegistryTables) (d : Definition) :
    Except PyErr Unit := do
  let _ ← constructSpreadsheet tables.sheets d
  let _ ← constructRemote tables.remotes d
  let _ ← constructWebhook tables.webhooks d
  pure ()

/-- Phase-2 processing of one definition (src/main.py:183-235, with no
skip flags and no dry run): the renderer tasks, then the spreadsheet,
remote and webhook steps.  Returns the emitted events and the error, if
any, that aborted this definition.  `defi.tasks` is attribute access:
an absent key raises `AttributeError`
(`DictObject.__getattr__`, src/papyruslib/bases.py:49-57).  The three
extension accesses repeat the already-cached construction, whose result
equals the phase-1 construction. -/
def processDefinition (tables : RegistryTables) (d : Definition) :
    List Event × Option PyErr :=
  match d.tasks with
  | none => ([], some .attributeError)
  | some ts =>
      let taskStep : Except PyErr (List Event) :=
        if ts.isEmpty then .ok [.warnNoTasks]
        else d.string_commands.map (List.map Event.runTask)
      match taskStep with
      | .error e => ([], some e)
      | .ok evs =>
          let extStep : Except PyErr (List Event) := do
            let sp ← constructSpreadsheet tables.sheets d
            let r ← constructRemote tables.remotes d
            let w ← constructWebhook tables.webhooks d
            pure ((if sp.isSome then [Event.setMarkers] else [])
              ++ (if r.isSome then [Event.upload] else [])
              ++ (if w.isSome then [Event.push] else []))
          match extStep with
          | .error e => (evs, some e)
          | .ok evs2 => (evs ++ evs2, none)

/-- The phase-2 loop over all definitions, stopping at the first error. -/
def processLoop (tables : RegistryTables) :
    List Definition → List Event × Option PyErr
  | [] => ([], none)
  | d :: rest =>
      match processDefinition tables d with
      | (evs, some e) => (evs, some e)
      | (evs, none) =>
          let r := processLoop tables rest
          (evs ++ r.1, r.2)

/-- The trace of `main` (src/main.py:172-235) over already-parsed
definitions: the up-front resolution pass
(`for file, defi in DEFINITIONS: defi._cache_all()`), which emits no
events, followed by the processing loop. -/
def mainTrace (tables : RegistryTables) (defs : List Definition) :
    List Event × Option PyErr :=
  match defs.forM (fun d => d.cache_all tables) with
  | .error e => ([], some e)
  | .ok _ => processLoop tables defs

/-!
Marker synthesis (src/papyruslib/components/gsheets.py).  The Sheets API
response grid is modelled structurally; every `dict.get` default of the
source appears as an `Option` with the same default.
-/

/-- A normalized-channel RGB color from the Sheets API; each missing
channel defaults to 0 in `hexify`. -/
structure SheetColor where
  red : Option Rat := none
  green : Option Rat := none
  blue : Option Rat := none
  deriving Repr, DecidableEq

/-- The `textFormat` fragment of a cell format. -/
structure SheetTextFormat where
  foregroundColor : Option SheetColor := none
  deriving Repr, DecidableEq

/-- The `userEnteredFormat` fragment of a cell. -/
structure SheetCellFormat where
  textFormat : Option SheetTextFormat := none
  deriving Repr, DecidableEq

/-- The `effectiveValue` fragment of a cell. -/
structure EffValue where
  numberValue : Option PyNum := none
  boolValue : Option Bool := none
  deriving Repr, DecidableEq

/-- One cell (`CellData`) of a fetched grid. -/
structure CellData where
  formattedValue : Option String := none
  effectiveValue : Option EffValue := none
  userEnteredFormat : Option SheetCellFormat := none
  deriving Repr, DecidableEq

/-- One row of a fetched grid: the `values` key is absent for an empty
row. -/
structure RowData where
  values : Option (List CellData) := none
  deriving Repr, DecidableEq

/-- One fetched range (`GridData`); `rowData` defaults to `[]`. -/
structure GridData where
  rowData : List RowData := []
  deriving Repr, DecidableEq

/-- One sheet of the fetch result; `data` holds one `GridData` per
requested range. -/
structure SheetData where
  data : List GridData := []
  deriving Repr, DecidableEq

/-- The result of `GoogleSheet._fetch_ranges`
(src/papyruslib/components/gsheets.py:81-84), at the network boundary. -/
structure FetchedSpreadsheet where
  sheets : List SheetData := []
  deriving Repr, DecidableEq

/-- Python `int(v)` on a rational: truncation toward zero. -/
def pyIntOfRat (q : Rat) : Int :=
  if 0 ≤ q then q.floor else -((-q).floor)

/-- Embeds `hexify` (src/papyruslib/components/gsheets.py:22-25):
each channel defaults to 0, is multiplied by 255 and truncated, and is
rendered as two lowercase hex digits. -/
def hexify (c : SheetColor) : String :=
  let chan := fun (v : Option Rat) => byteHex (pyIntOfRat (v.getD 0 * 255)).toNat
  "#" ++ chan c.red ++ chan c.green ++ chan c.blue

/-- Embeds `get_colour` (src/papyruslib/components/gsheets.py:28-32):
the chain `d.get("userEnteredFormat", {}).get("textFormat", {}).get("foregroundColor")`
with `None` when any link is missing. -/
def get_colour (d : CellData) : Option String :=
  match d.userEnteredFormat with
  | none => none
  | some f =>
      match f.textFormat with
      | none => none
      | some tf =>
          match tf.foregroundColor with
          | none => none
          | some c => some (hexify c)

/-- Embeds `centre_blocks` (src/papyruslib/components/gsheets.py:35-38):
a Python `int` becomes `i + 0.5` (a float); any other number is returned
unchanged. -/
def centre_blocks (i : PyNum) : PyNum :=
  match i with
  | .int n => .float ((n : Rat) + 1 / 2)
  | .float q => .float q

/-- The `numberValue` of a cell:
`cell.get("effectiveValue", {}).get("numberValue")`. -/
def CellData.numValue (c : CellData) : Option PyNum :=
  match c.effectiveValue with
  | some e => e.numberValue
  | none => none

/-- Embeds `form_location` (src/papyruslib/components/gsheets.py:41-51):
unpacking `x, y, z = values` raises `ValueError` unless there are
exactly three cells; a missing `numberValue` on either horizontal axis
raises `ValueError`; the vertical axis defaults to the Python int `0`;
the horizontal axes are block-centered. -/
def form_location (values : List CellData) :
    Except PyErr (PyNum × PyNum × PyNum) := do
  match values with
  | [x, y, z] =>
      let xval ← match x.numValue with
        | some v => pure v
        | none => throw PyErr.valueError
      let yval := y.numValue.getD (.int 0)
      let zval ← match z.numValue with
        | some v => pure v
        | none => throw PyErr.valueError
      pure (centre_blocks xval, yval, centre_blocks zval)
  | _ => throw PyErr.valueError

/-- One entry of the `names` comprehension
(src/papyruslib/components/gsheets.py:111-114):
`o.get("values", [{}])[0].get("formattedValue", "???")`.  A row with a
present but empty `values` list makes the index `[0]` raise. -/
def nameOfRow (o : RowData) : Except PyErr String :=
  match o.values with
  | none => .ok "???"
  | some [] => .error .indexError
  | some (c :: _) => .ok (c.formattedValue.getD "???")

/-- One entry of the `positions` comprehension
(src/papyruslib/components/gsheets.py:115-118):
`form_location(r["values"]) if "values" in r else None`.  A raised
`ValueError` from `form_location` propagates. -/
def positionOfRow (r : RowData) :
    Except PyErr (Option (PyNum × PyNum × PyNum)) :=
  match r.values with
  | some vs => (form_location vs).map some
  | none => .ok none

/-- One entry of the `checks` comprehension
(src/papyruslib/components/gsheets.py:119-130): `False` when the row has
no `values`; otherwise the first cell's `boolValue` if present, else the
truthiness of its stripped `formattedValue` (absent text defaults to the
empty string). -/
def checkOfRow (o : RowData) : Except PyErr Bool :=
  match o.values with
  | none => .ok false
  | some [] => .error .indexError
  | some (c :: _) =>
      let fallback := (c.formattedValue.getD "").trim != ""
      .ok (match c.effectiveValue with
        | some e => e.boolValue.getD fallback
        | none => fallback)

/-- One entry of the `colours` comprehension
(src/papyruslib/components/gsheets.py:131-134):
`get_colour(o.get("values", [])[0]) if "values" in o else None`. -/
def colourOfRow (o : RowData) : Except PyErr (Option String) :=
  match o.values with
  | none => .ok none
  | some [] => .error .indexError
  | some (c :: _) => .ok (get_colour c)

/-- A Python list comprehension whose body may raise: elements are
evaluated left to right and the first raise propagates. -/
def mapE {α β : Type} (f : α → Except PyErr β) : List α → Except PyErr (List β)
  | [] => .ok []
  | a :: as => do
      let b ← f a
      let bs ← mapE f as
      pure (b :: bs)

/-- One dimension block of a `gsheet` spreadsheet configuration
(class `DimensionsData`, src/papyruslib/components/gsheets.py:54-58). -/
structure DimensionsData where
  id : Int := 0
  name : String
  position : String
  check : Option String := none
  deriving Repr, DecidableEq

/-- Zip-shortest over four parallel lists (the `zip` of the row loop). -/
def zip4 {α β γ δ : Type} : List α → List β → List γ → List δ →
    List (α × β × γ × δ)
  | a :: as, b :: bs, c :: cs, d :: ds => (a, b, c, d) :: zip4 as bs cs ds
  | _, _, _, _ => []

/-- The body of the row loop
(src/papyruslib/components/gsheets.py:139-150): a row whose position is
`None` is skipped; otherwise a `PlayerMarker` is constructed from the
row, its uuid derived from the name and its color set from the override
(falling back to the name-derived palette color when the override is
`None`). -/
def synthRow (dspec : DimensionsData)
    (row : String × Option (PyNum × PyNum × PyNum) × Bool × Option String) :
    Option PlayerMarker :=
  match row.2.1 with
  | none => none
  | some p =>
      let m : PlayerMarker :=
        { name := some row.1, position := p, visible := row.2.2.1,
          dimensionId := dspec.id }
      some ((m.set_uuid_from_name).set_color row.2.2.2)

/-- Embeds the per-dimension body of `GoogleSheet.get_playermarkers`
(src/papyruslib/components/gsheets.py:94-150), taking the fetched grid
as input.  The source asserts exactly one sheet, unpacks
`namedata, positiondata, *remaining = ranges` (then `(checkdata,) =
remaining`), evaluates the four comprehensions in order, and runs the
zip-shortest row loop; an absent check range behaves as
`repeat(True)` / `repeat(None)`, so the zip is bounded by names and
positions alone. -/
def getPlayermarkersDim (dspec : DimensionsData)
    (fetched : FetchedSpreadsheet) : Except PyErr (List PlayerMarker) := do
  let sheet ← match fetched.sheets with
    | [s] => pure s
    | _ => throw PyErr.assertionError
  let rest ← match sheet.data with
    | namedata :: positiondata :: remaining => pure (namedata, positiondata, remaining)
    | _ => throw PyErr.valueError
  let checkdata ← match rest.2.2 with
    | [] => pure Option.none
    | [cd] => pure (Option.some cd)
    | _ => throw PyErr.valueError
  let names ← mapE nameOfRow rest.1.rowData
  let positions ← mapE positionOfRow rest.2.1.rowData
  match checkdata with
  | some cd =>
      let checks ← mapE checkOfRow cd.rowData
      let colours ← mapE colourOfRow cd.rowData
      pure ((zip4 names positions checks colours).filterMap (synthRow dspec))
  | none =>
      pure (((names.zip positions).map (fun np => (np.1, np.2, true, Option.none))).filterMap
        (synthRow dspec))

/-- The full `get_playermarkers` loop over the configured dimensions,
in iteration order, with each dimension's fetch result supplied at the
network boundary. -/
def get_playermarkers (dims : List (DimensionsData × FetchedSpreadsheet)) :
    Except PyErr (List PlayerMarker) := do
  let lists ← mapE (fun p => getPlayermarkersDim p.1 p.2) dims
  pure lists.flatten

/-- A fetch result with two ranges (no check range): a name column of
three one-cell rows and a position column of three given rows. -/
def alignedRows3 (n1 n2 n3 : String) (row1 row2 row3 : RowData) :
    FetchedSpreadsheet :=
  { sheets := [{ data := [
      { rowData := [{ values := some [{ formattedValue := some n1 }] },
                    { values := some [{ formattedValue := some n2 }] },
                    { values := some [{ formattedValue := some n3 }] }] },
      { rowData := [row1, row2, row3] }] }] }

/-- A fetch result with three ranges (names, positions, check), each of
a single row. -/
def checkedRow1 (n : String) (posRow checkRow : RowData) :
    FetchedSpreadsheet :=
  { sheets := [{ data := [
      { rowData := [{ values := some [{ formattedValue := some n }] }] },
      { rowData := [posRow] },
      { rowData := [checkRow] }] }] }

/-- A position cell holding the Python int `n`. -/
def intCell (n : Int) : CellData :=
  { effectiveValue := some { numberValue := some (.int n) } }

/-- A registry table with only the `gsheet` spreadsheet tag registered,
used as a concrete input below. -/
def exampleTables : RegistryTables := { sheets := ["gsheet"] }

/-- A concrete definition carrying a registered spreadsheet block, used
as a concrete input below. -/
def exampleDef : Definition :=
  { world := some "w", dest := some "o",
    spreadsheet := some { tag := some "gsheet" } }

/-!
Helper lemmas.
-/

@[simp]
theorem except_bind_ok {ε α β : Type} (a : α) (k : α → Except ε β) :
    (Except.ok a >>= k) = k a := rfl

@[simp]
theorem except_bind_error {ε α β : Type} (e : ε) (k : α → Except ε β) :
    ((Except.error e : Except ε α) >>= k) = Except.error e := rfl

@[simp]
theorem except_map_ok {ε α β : Type} (f : α → β) (a : α) :
    (Except.ok a : Except ε α).map f = Except.ok (f a) := rfl

@[simp]
theorem except_map_error {ε α β : Type} (f : α → β) (e : ε) :
    (Except.error e : Except ε α).map f = Except.error e := rfl

@[simp]
theorem except_pure_eq_ok {ε α : Type} (a : α) :
    (pure a : Except ε α) = Except.ok a := rfl

@[simp]
theorem except_throw_eq_error {ε α : Type} (e : ε) :
    (throw e : Except ε α) = Except.error e := rfl

theorem iterable_to_options_map_foldl (es : List (PyVal × PyVal))
    (acc : List String) :
    (es.foldl
        (fun olist kv =>
          let olist := olist ++ [kv.1.pyStr]
          if kv.2.isNoneOrBool then olist else olist ++ [kv.2.pyStr])
        acc)
      = acc ++ es.flatMap entryTokens := by
  induction es generalizing acc with
  | nil => simp
  | cons kv rest ih =>
      simp only [List.foldl_cons, List.flatMap_cons, ih, entryTokens]
      by_cases h : kv.2.isNoneOrBool <;> simp [h]

/-- The mapping branch of `iterable_to_options` emits exactly the
concatenation of the per-entry token lists, in iteration order. -/
theorem iterable_to_options_map_eq (es : List (PyVal × PyVal)) :
    iterable_to_options (.map es) = es.flatMap entryTokens := by
  simpa [iterable_to_options] using iterable_to_options_map_foldl es []

/-- A `forM` over `Except` fails when any list element fails. -/
theorem list_forM_error {α : Type} (f : α → Except PyErr Unit) :
    ∀ (l : List α) (x : α), x ∈ l → (∃ e, f x = .error e) →
      ∃ e, l.forM f = .error e := by
  intro l
  induction l with
  | nil => intro x hx; cases hx
  | cons y ys ih =>
      intro x hx hfe
      rcases List.mem_cons.mp hx with h | h
      · subst h
        obtain ⟨e, he⟩ := hfe
        exact ⟨e, by simp [List.forM_cons, he]⟩
      · cases hfy : f y with
        | error e => exact ⟨e, by simp [List.forM_cons, hfy]⟩
        | ok u =>
            obtain ⟨e, he⟩ := ih x h hfe
            exact ⟨e, by simp [List.forM_cons, hfy, he]⟩

/-!
Claim theorems.
-/

/-- C3: for every mapping option structure, flattening emits per entry,
in iteration order, the key string followed by the value string unless
the value is identically `None`, `True` or `False`; for an entry whose
value is one of those, exactly the key is emitted and the value string
never appears. -/
theorem flatten_mapping_flag_semantics (es : List (PyVal × PyVal)) :
    iterable_to_options (.map es) = es.flatMap entryTokens
      ∧ ∀ kv ∈ es, kv.2.isNoneOrBool = true → entryTokens kv = [kv.1.pyStr] := by
  refine ⟨iterable_to_options_map_eq es, ?_⟩
  intro kv _ h
  simp [entryTokens, h]

/-- Closed instance of `flatten_mapping_flag_semantics`. -/
theorem flatten_mapping_flag_semantics_witness :
    iterable_to_options
        (.map [(.str "k", .bool true), (.str "n", .none), (.str "j", .int 3)])
      = [(PyVal.str "k", PyVal.bool true), (PyVal.str "n", PyVal.none),
          (PyVal.str "j", PyVal.int 3)].flatMap entryTokens
    ∧ entryTokens (.str "k", .bool true) = [(PyVal.str "k").pyStr] :=
  ⟨(flatten_mapping_flag_semantics _).1,
    (flatten_mapping_flag_semantics
        [(.str "k", .bool true), (.str "n", .none), (.str "j", .int 3)]).2
      (.str "k", .bool true) (by decide) (by decide)⟩

/-- C4: for a `Definition` with a world, a destination and a non-empty
task list, `string_commands` returns exactly one argument vector per
task, in task order, each equal to
`["--world", world, "--output", dest] ++ flatten(defaultOptions) ++ flatten(task)`,
with `defaultOptions` defaulting to an empty mapping. -/
theorem string_commands_per_task (d : Definition) (w dst : String)
    (ts : List OptStruct) (hw : d.world = some w) (hd : d.dest = some dst)
    (ht : d.tasks = some ts) (_hne : ts ≠ []) :
    d.string_commands
        = .ok (ts.map (fun op =>
            ["--world", w, "--output", dst]
              ++ iterable_to_options (d.defaultoptions.getD (.map []))
              ++ iterable_to_options op))
      ∧ ∀ cmds, d.string_commands = .ok cmds → cmds.length = ts.length := by
  have h1 : d.string_commands
      = .ok (ts.map (fun op =>
          ["--world", w, "--output", dst]
            ++ iterable_to_options (d.defaultoptions.getD (.map []))
            ++ iterable_to_options op)) := by
    simp [Definition.string_commands, hw, hd, ht, List.append_assoc]
  refine ⟨h1, ?_⟩
  intro cmds hc
  rw [h1] at hc
  cases hc
  simp

/-- Closed instance of `string_commands_per_task`. -/
theorem string_commands_per_task_witness :
    ({ world := some "w", dest := some "o",
       defaultoptions := some (.map [(.str "k", .bool true)]),
       tasks := some [.seq [.str "t1"], .seq [.str "t2"]] } : Definition).string_commands
        = .ok ([OptStruct.seq [.str "t1"], OptStruct.seq [.str "t2"]].map (fun op =>
            ["--world", "w", "--output", "o"]
              ++ iterable_to_options ((some (OptStruct.map [(.str "k", .bool true)])).getD (.map []))
              ++ iterable_to_options op))
      ∧ ∀ cmds,
          ({ world := some "w", dest := some "o",
             defaultoptions := some (.map [(.str "k", .bool true)]),
             tasks := some [.seq [.str "t1"], .seq [.str "t2"]] } : Definition).string_commands
            = .ok cmds →
          cmds.length = [OptStruct.seq [.str "t1"], OptStruct.seq [.str "t2"]].length :=
  string_commands_per_task _ "w" "o" _ rfl rfl rfl (by decide)

/-- C6: the two horizontal axes are block-centered — an `int` input `v`
becomes `v + 0.5`, a float input passes through unchanged — and the
vertical axis is never offset by `form_location`; on the integral input
`(10, 5, 20)` the synthesized position is `(10.5, 5, 20.5)`. -/
theorem horizontal_axes_block_centred :
    (∀ n : Int, centre_blocks (.int n) = .float ((n : Rat) + 1 / 2))
      ∧ (∀ q : Rat, centre_blocks (.float q) = .float q)
      ∧ (∀ (x y z : CellData) (p : PyNum × PyNum × PyNum),
          form_location [x, y, z] = .ok p → p.2.1 = y.numValue.getD (.int 0))
      ∧ form_location
          [{ effectiveValue := some { numberValue := some (.int 10) } },
           { effectiveValue := some { numberValue := some (.int 5) } },
           { effectiveValue := some { numberValue := some (.int 20) } }]
        = .ok (.float (21 / 2), .int 5, .float (41 / 2)) := by
  refine ⟨fun n => rfl, fun q => rfl, ?_, by
    norm_num [form_location, CellData.numValue, centre_blocks]⟩
  intro x y z p h
  cases hx : x.numValue with
  | none => simp [form_location, hx] at h
  | some xv =>
      cases hz : z.numValue with
      | none => simp [form_location, hx, hz] at h
      | some zv =>
          simp only [form_location, hx, hz, except_bind_ok, except_pure_eq_ok,
            except_throw_eq_error] at h
          cases h
          rfl

/-- Closed instance of the vertical-axis conjunct of
`horizontal_axes_block_centred`. -/
theorem horizontal_axes_block_centred_witness :
    ((.float (21 / 2), .int 5, .float (41 / 2)) :
        PyNum × PyNum × PyNum).2.1
      = ({ effectiveValue := some { numberValue := some (.int 5) } } :
          CellData).numValue.getD (.int 0) :=
  horizontal_axes_block_centred.2.2.1
    { effectiveValue := some { numberValue := some (.int 10) } }
    { effectiveValue := some { numberValue := some (.int 5) } }
    { effectiveValue := some { numberValue := some (.int 20) } }
    (.float (21 / 2), .int 5, .float (41 / 2))
    horizontal_axes_block_centred.2.2.2

/-- C7: marker identity (a UUID formed from the MD5 hash of the UTF-8
name) and marker color (the hash as an integer modulo the palette size)
are pure functions of the name: two markers with the same truthy name
derive identical uuid and color, and re-deriving is idempotent. -/
theorem marker_identity_color_pure (m₁ m₂ : PlayerMarker) (n : String)
    (h₁ : m₁.name = some n) (h₂ : m₂.name = some n) (hn : n ≠ "") :
    (m₁.set_uuid_from_name).uuid = (m₂.set_uuid_from_name).uuid
      ∧ (m₁.set_color none).color = (m₂.set_color none).color
      ∧ ((m₁.set_uuid_from_name).set_uuid_from_name).uuid
          = (m₁.set_uuid_from_name).uuid
      ∧ ((m₁.set_color none).set_color none).color = (m₁.set_color none).color
      ∧ (m₁.set_uuid_from_name).uuid = uuidStrOfHex (md5HexOfString n)
      ∧ (m₁.set_color none).color
          = DEFAULT_COLORS.getD (md5NatOfString n % DEFAULT_COLORS.length) "" := by
  refine ⟨?_, ?_, ?_, ?_, ?_, ?_⟩ <;>
    simp [PlayerMarker.set_uuid_from_name, PlayerMarker.set_color,
      PlayerMarker.hashHex, PlayerMarker.hashSource, h₁, h₂, hn]

/-- Closed instance of `marker_identity_color_pure`. -/
theorem marker_identity_color_pure_witness :
    (({ name := some "Steve" } : PlayerMarker).set_uuid_from_name).uuid
        = (({ name := some "Steve", uuid := "other" } :
            PlayerMarker).set_uuid_from_name).uuid
      ∧ (({ name := some "Steve" } : PlayerMarker).set_color none).color
          = (({ name := some "Steve", uuid := "other" } :
              PlayerMarker).set_color none).color :=
  let h := marker_identity_color_pure { name := some "Steve" }
    { name := some "Steve", uuid := "other" } "Steve" rfl rfl (by decide)
  ⟨h.1, h.2.1⟩

/-- An unregistered tag makes `Definition._cache_all` raise. -/
theorem cache_all_error_of_unregistered (tables : RegistryTables)
    (d : Definition) (b : TaggedBlock) (t : String)
    (hb : b.truthy = true) (ht : b.tag = some t)
    (hcase : (d.spreadsheet = some b ∧ t ∉ tables.sheets)
      ∨ (d.remote = some b ∧ t ∉ tables.remotes)
      ∨ (d.webhook = some b ∧ t ∉ tables.webhooks)) :
    ∃ e, d.cache_all tables = .error e := by
  rcases hcase with ⟨hblk, hmem⟩ | ⟨hblk, hmem⟩ | ⟨hblk, hmem⟩
  · refine ⟨.exn ("Cannot find type " ++ t), ?_⟩
    simp [Definition.cache_all, constructSpreadsheet, hblk, hb,
      resolveTagged, ht, hmem]
  · cases hcs : constructSpreadsheet tables.sheets d with
    | error e => exact ⟨e, by simp [Definition.cache_all, hcs]⟩
    | ok v =>
        refine ⟨.exn ("Cannot find type " ++ t), ?_⟩
        simp [Definition.cache_all, hcs, constructRemote, hblk, hb,
          resolveTagged, ht, hmem]
  · cases hcs : constructSpreadsheet tables.sheets d with
    | error e => exact ⟨e, by simp [Definition.cache_all, hcs]⟩
    | ok v =>
        cases hcr : constructRemote tables.remotes d with
        | error e => exact ⟨e, by simp [Definition.cache_all, hcs, hcr]⟩
        | ok u =>
            refine ⟨.exn ("Cannot find type " ++ t), ?_⟩
            simp [Definition.cache_all, hcs, hcr, constructWebhook, hblk, hb,
              resolveTagged, ht, hmem]

/-- C1: a tagged block whose `type` is not registered in the relevant
category table fails to construct with a `Cannot find type` error, and
when any definition of a run carries such a block, `main` fails during
the up-front resolution pass with an empty event trace — in particular
before any renderer task subprocess is started. -/
theorem unregistered_type_fails_before_tasks (tables : RegistryTables)
    (defs : List Definition) (d : Definition) (b : TaggedBlock) (t : String)
    (hd : d ∈ defs) (hb : b.truthy = true) (ht : b.tag = some t)
    (hcase : (d.spreadsheet = some b ∧ t ∉ tables.sheets)
      ∨ (d.remote = some b ∧ t ∉ tables.remotes)
      ∨ (d.webhook = some b ∧ t ∉ tables.webhooks)) :
    (∀ (specs : List String) (parent : Option Definition), t ∉ specs →
        resolveTagged specs b parent
          = .error (.exn ("Cannot find type " ++ t)))
      ∧ ∃ e, mainTrace tables defs = ([], some e) := by
  constructor
  · intro specs parent hmem
    simp [resolveTagged, ht, hmem]
  · obtain ⟨e, he⟩ := list_forM_error (fun d => d.cache_all tables) defs d hd
      (cache_all_error_of_unregistered tables d b t hb ht hcase)
    exact ⟨e, by simp [mainTrace, he]⟩

/-- Closed instance of `unregistered_type_fails_before_tasks`. -/
theorem unregistered_type_fails_before_tasks_witness :
    (∀ (specs : List String) (parent : Option Definition),
        "gsheet" ∉ specs →
        resolveTagged specs { tag := some "gsheet" } parent
          = .error (.exn ("Cannot find type " ++ "gsheet")))
      ∧ ∃ e, mainTrace { sheets := ["other"] }
          [{ world := some "w", dest := some "o", tasks := some [.seq []],
             spreadsheet := some { tag := some "gsheet" } }]
          = ([], some e) :=
  unregistered_type_fails_before_tasks { sheets := ["other"] }
    [{ world := some "w", dest := some "o", tasks := some [.seq []],
       spreadsheet := some { tag := some "gsheet" } }]
    { world := some "w", dest := some "o", tasks := some [.seq []],
      spreadsheet := some { tag := some "gsheet" } }
    { tag := some "gsheet" } "gsheet"
    (by decide) (by decide) rfl (Or.inl ⟨rfl, by decide⟩)

/-- C2 counterexample: with both a truthy back-reference (destination
`pd`) and a truthy explicit context (destination `ed`) supplied,
`write_playermarkers` targets the back-reference's path, not the
explicit context's, and `RsyncRemote.upload` builds its command from
the back-reference's destination: the explicit argument does not
override the back-reference. -/
theorem explicit_context_overrides_counterexample :
    write_playermarkers_path
        (some { world := some "pw", dest := some "pd" })
        (some { dest := some "ed" })
      = .ok "pd/map/playersData.js"
    ∧ write_playermarkers_path
        (some { world := some "pw", dest := some "pd" })
        (some { dest := some "ed" })
      ≠ .ok "ed/map/playersData.js"
    ∧ rsync_upload_command
        { ip := "host", path := "rp", parent := some { dest := some "pd" } }
        (some { dest := some "ed" })
      = .ok (rsync_make_command
          { ip := "host", path := "rp", parent := some { dest := some "pd" } }
          "pd/map/") := by
  refine ⟨rfl, ?_, rfl⟩
  intro h
  simp [write_playermarkers_path, resolveContext, pyOrDef,
    Definition.truthy] at h

/-- C2 amended: in the operations that resolve a context via
`defi = self._parent or defi`, a truthy stored back-reference is always
the context used, and the explicit argument is consulted only when the
back-reference is absent or falsy. -/
theorem backref_overrides_explicit_context (p : Definition)
    (explicit : Option Definition) (hp : p.truthy = true) :
    resolveContext (some p) explicit = .ok p
      ∧ (∀ dst, p.dest = some dst →
          write_playermarkers_path (some p) explicit
            = .ok (dst ++ "/map/playersData.js"))
      ∧ (∀ (r : RsyncRemoteData) (dst : String), r.parent = some p →
          p.dest = some dst →
          rsync_upload_command r explicit
            = .ok (rsync_make_command r (dst ++ "/map/"))) := by
  have hres : resolveContext (some p) explicit = .ok p := by
    simp [resolveContext, pyOrDef, hp]
  refine ⟨hres, ?_, ?_⟩
  · intro dst hdst
    simp [write_playermarkers_path, hres, hdst]
  · intro r dst hpar hdst
    simp [rsync_upload_command, hpar, hres, hdst]

/-- Closed instance of `backref_overrides_explicit_context`. -/
theorem backref_overrides_explicit_context_witness :
    resolveContext (some { dest := some "pd" }) (some { dest := some "ed" })
        = .ok { dest := some "pd" }
      ∧ write_playermarkers_path (some { dest := some "pd" })
          (some { dest := some "ed" })
        = .ok ("pd" ++ "/map/playersData.js") :=
  let h := backref_overrides_explicit_context { dest := some "pd" }
    (some { dest := some "ed" }) (by decide)
  ⟨h.1, h.2.1 "pd" rfl⟩

/-- A successful `cachedGet` fills the slot, and a repeated access
returns the same value without running the body. -/
theorem cachedGet_idem (body : Except PyErr (Option ResolvedExt))
    (slot : Option (Option ResolvedExt)) (v : Option ResolvedExt)
    (h : (cachedGet body slot).1 = .ok v) :
    cachedGet body (cachedGet body slot).2.1
      = (.ok v, (cachedGet body slot).2.1, false) := by
  cases slot with
  | some w =>
      simp [cachedGet] at h ⊢
      exact h
  | none =>
      cases hb : body with
      | ok u =>
          simp [cachedGet, hb] at h ⊢
          exact h
      | error e => simp [cachedGet, hb] at h

/-- C8: for every `Definition`, a second access to its
spreadsheet/remote/webhook property returns the previously resolved
instance with the cache unchanged and without re-running the
construction logic (the third component records whether the getter body
ran). -/
theorem extension_resolution_memoized (tables : RegistryTables)
    (d : Definition) (c : DefCache) :
    (∀ v, (d.getSpreadsheet tables c).1 = .ok v →
        d.getSpreadsheet tables (d.getSpreadsheet tables c).2.1
          = (.ok v, (d.getSpreadsheet tables c).2.1, false))
      ∧ (∀ v, (d.getRemote tables c).1 = .ok v →
          d.getRemote tables (d.getRemote tables c).2.1
            = (.ok v, (d.getRemote tables c).2.1, false))
      ∧ (∀ v, (d.getWebhook tables c).1 = .ok v →
          d.getWebhook tables (d.getWebhook tables c).2.1
            = (.ok v, (d.getWebhook tables c).2.1, false)) := by
  refine ⟨?_, ?_, ?_⟩
  · intro v h
    have := cachedGet_idem (constructSpreadsheet tables.sheets d) c.spreadsheet v
      (by simpa [Definition.getSpreadsheet] using h)
    simp [Definition.getSpreadsheet] at this ⊢
    simp [this]
  · intro v h
    have := cachedGet_idem (constructRemote tables.remotes d) c.remote v
      (by simpa [Definition.getRemote] using h)
    simp [Definition.getRemote] at this ⊢
    simp [this]
  · intro v h
    have := cachedGet_idem (constructWebhook tables.webhooks d) c.webhook v
      (by simpa [Definition.getWebhook] using h)
    simp [Definition.getWebhook] at this ⊢
    simp [this]

/-- Closed instance of `extension_resolution_memoized`. -/
theorem extension_resolution_memoized_witness :
    ∃ v, (exampleDef.getSpreadsheet exampleTables {}).1 = .ok v
      ∧ exampleDef.getSpreadsheet exampleTables
          (exampleDef.getSpreadsheet exampleTables {}).2.1
        = (.ok v, (exampleDef.getSpreadsheet exampleTables {}).2.1, false) :=
  ⟨some { variantTag := "gsheet", data := { tag := some "gsheet" },
          parent := some exampleDef },
   rfl,
   (extension_resolution_memoized exampleTables exampleDef {}).1 _ rfl⟩

/-- C9 counterexample: a `Definition` whose `tasks` key is absent makes
`main` raise `AttributeError` (via `DictObject.__getattr__` on
`defi.tasks`) instead of logging a warning: the run ends in an error
with no warning event. -/
theorem absent_tasks_error_counterexample :
    mainTrace {} [{ world := some "w", dest := some "o" }]
      = ([], some .attributeError) := rfl

/-- C9 amended: a `Definition` with an empty `tasks` list is valid —
processing emits the `No tasks listed` warning, runs no renderer task
and ends without error — while an absent `tasks` key raises
`AttributeError` (see the counterexample). -/
theorem empty_tasks_is_warning_not_error (tables : RegistryTables)
    (d : Definition) (ht : d.tasks = some [])
    (hc : d.cache_all tables = .ok ()) :
    ∃ evs, mainTrace tables [d] = (evs, none)
      ∧ Event.warnNoTasks ∈ evs
      ∧ ∀ cmd, Event.runTask cmd ∉ evs := by
  obtain ⟨sp, hcs⟩ : ∃ v, constructSpreadsheet tables.sheets d = .ok v := by
    cases hcs : constructSpreadsheet tables.sheets d with
    | ok v => exact ⟨v, rfl⟩
    | error e => simp [Definition.cache_all, hcs] at hc
  obtain ⟨r, hcr⟩ : ∃ v, constructRemote tables.remotes d = .ok v := by
    cases hcr : constructRemote tables.remotes d with
    | ok v => exact ⟨v, rfl⟩
    | error e => simp [Definition.cache_all, hcs, hcr] at hc
  obtain ⟨wh, hcw⟩ : ∃ v, constructWebhook tables.webhooks d = .ok v := by
    cases hcw : constructWebhook tables.webhooks d with
    | ok v => exact ⟨v, rfl⟩
    | error e => simp [Definition.cache_all, hcs, hcr, hcw] at hc
  refine ⟨Event.warnNoTasks ::
      ((if sp.isSome then [Event.setMarkers] else [])
        ++ (if r.isSome then [Event.upload] else [])
        ++ (if wh.isSome then [Event.push] else [])), ?_, ?_, ?_⟩
  · simp [mainTrace, List.forM_cons, List.forM_nil, hc, processLoop,
      processDefinition, ht, hcs, hcr, hcw]
  · simp
  · intro cmd h
    by_cases h1 : sp.isSome <;> by_cases h2 : r.isSome <;>
      by_cases h3 : wh.isSome <;> simp [h1, h2, h3] at h

/-- Closed instance of `empty_tasks_is_warning_not_error`. -/
theorem empty_tasks_is_warning_not_error_witness :
    ∃ evs, mainTrace {}
        [{ world := some "w", dest := some "o", tasks := some [] }]
      = (evs, none)
      ∧ Event.warnNoTasks ∈ evs
      ∧ ∀ cmd, Event.runTask cmd ∉ evs :=
  empty_tasks_is_warning_not_error {}
    { world := some "w", dest := some "o", tasks := some [] } rfl rfl

/-- C5 counterexample: three aligned row-sets of length 3 where row 2's
position cells are present but hold no numeric value: marker synthesis
raises `ValueError` from `form_location` instead of skipping the row,
so it does not emit 2 markers (or any marker list at all). -/
theorem unparseable_coordinate_aborts_counterexample :
    getPlayermarkersDim { name := "N", position := "P" }
        (alignedRows3 "A" "B" "C"
          { values := some [intCell 10, {}, intCell 20] }
          { values := some [{}, {}, {}] }
          { values := some [intCell 1, intCell 2, intCell 3] })
      = .error .valueError
    ∧ ∀ ms : List PlayerMarker,
        getPlayermarkersDim { name := "N", position := "P" }
          (alignedRows3 "A" "B" "C"
            { values := some [intCell 10, {}, intCell 20] }
            { values := some [{}, {}, {}] }
            { values := some [intCell 1, intCell 2, intCell 3] })
          ≠ .ok ms := by
  constructor
  · rfl
  · intro ms h
    rw [show getPlayermarkersDim { name := "N", position := "P" }
        (alignedRows3 "A" "B" "C"
          { values := some [intCell 10, {}, intCell 20] }
          { values := some [{}, {}, {}] }
          { values := some [intCell 1, intCell 2, intCell 3] })
      = .error .valueError from rfl] at h
    exact Except.noConfusion h

/-- C5 amended: a row whose position entry is entirely absent (no
`values` key) is skipped with no partial marker: three aligned row-sets
of length 3 where row 2's position entry is absent yield exactly the 2
markers of rows 1 and 3; a row whose position cells are present but
unparseable instead aborts the synthesis with `ValueError` (see the
counterexample), and the vertical axis of a parsed row defaults to 0
when absent. -/
theorem missing_position_row_skipped (dspec : DimensionsData)
    (n1 n2 n3 : String) (hn1 : n1 ≠ "") (hn3 : n3 ≠ "")
    (r1 r3 : List CellData) (p1 p3 : PyNum × PyNum × PyNum)
    (hp1 : form_location r1 = .ok p1) (hp3 : form_location r3 = .ok p3) :
    getPlayermarkersDim dspec
        (alignedRows3 n1 n2 n3
          { values := some r1 } { values := none } { values := some r3 })
      = .ok
          [{ uuid := uuidStrOfHex (md5HexOfString n1), name := some n1,
             dimensionId := dspec.id, position := p1,
             color := DEFAULT_COLORS.getD
               (md5NatOfString n1 % DEFAULT_COLORS.length) "",
             visible := true },
           { uuid := uuidStrOfHex (md5HexOfString n3), name := some n3,
             dimensionId := dspec.id, position := p3,
             color := DEFAULT_COLORS.getD
               (md5NatOfString n3 % DEFAULT_COLORS.length) "",
             visible := true }] := by
  simp [alignedRows3, getPlayermarkersDim, mapE, nameOfRow, positionOfRow,
    hp1, hp3, synthRow, PlayerMarker.set_uuid_from_name,
    PlayerMarker.set_color, PlayerMarker.hashHex, PlayerMarker.hashSource,
    hn1, hn3]

/-- Closed instance of `missing_position_row_skipped`. -/
theorem missing_position_row_skipped_witness :
    getPlayermarkersDim { name := "N", position := "P" }
        (alignedRows3 "A" "B" "C"
          { values := some [intCell 10, {}, intCell 20] }
          { values := none }
          { values := some [intCell 1, intCell 2, intCell 3] })
      = .ok
          [{ uuid := uuidStrOfHex (md5HexOfString "A"), name := some "A",
             dimensionId := ({ name := "N", position := "P" } :
               DimensionsData).id,
             position := (.float (21 / 2), .int 0, .float (41 / 2)),
             color := DEFAULT_COLORS.getD
               (md5NatOfString "A" % DEFAULT_COLORS.length) "",
             visible := true },
           { uuid := uuidStrOfHex (md5HexOfString "C"), name := some "C",
             dimensionId := ({ name := "N", position := "P" } :
               DimensionsData).id,
             position := (.float (3 / 2), .int 2, .float (7 / 2)),
             color := DEFAULT_COLORS.getD
               (md5NatOfString "C" % DEFAULT_COLORS.length) "",
             visible := true }] :=
  missing_position_row_skipped { name := "N", position := "P" }
    "A" "B" "C" (by decide) (by decide)
    [intCell 10, {}, intCell 20] [intCell 1, intCell 2, intCell 3]
    (.float (21 / 2), .int 0, .float (41 / 2))
    (.float (3 / 2), .int 2, .float (7 / 2))
    (by norm_num [form_location, intCell, CellData.numValue, centre_blocks])
    (by norm_num [form_location, intCell, CellData.numValue, centre_blocks])

/-- C10: with the check range present, a row whose check cell has no
`values` entry yields a marker that is not skipped, has
`visible = false`, and carries the name-derived palette color (no
explicit override); the text-truthiness fallback is not consulted for
such a row (`checkOfRow` returns `false` outright and `colourOfRow`
returns no override). -/
theorem check_cell_absent_yields_invisible (dspec : DimensionsData)
    (n : String) (r : List CellData) (p : PyNum × PyNum × PyNum)
    (hn : n ≠ "") (hp : form_location r = .ok p) :
    checkOfRow { values := none } = .ok false
      ∧ colourOfRow { values := none } = .ok none
      ∧ getPlayermarkersDim dspec
          (checkedRow1 n { values := some r } { values := none })
        = .ok
            [{ uuid := uuidStrOfHex (md5HexOfString n), name := some n,
               dimensionId := dspec.id, position := p,
               color := DEFAULT_COLORS.getD
                 (md5NatOfString n % DEFAULT_COLORS.length) "",
               visible := false }] := by
  refine ⟨rfl, rfl, ?_⟩
  simp [checkedRow1, getPlayermarkersDim, mapE, nameOfRow, positionOfRow,
    checkOfRow, colourOfRow, hp, synthRow, zip4,
    PlayerMarker.set_uuid_from_name, PlayerMarker.set_color,
    PlayerMarker.hashHex, PlayerMarker.hashSource, hn]

/-- Closed instance of `check_cell_absent_yields_invisible`. -/
theorem check_cell_absent_yields_invisible_witness :
    checkOfRow { values := none } = .ok false
      ∧ colourOfRow { values := none } = .ok none
      ∧ getPlayermarkersDim { name := "N", position := "P", check := some "Q" }
          (checkedRow1 "Steve"
            { values := some [intCell 10, intCell 5, intCell 20] }
            { values := none })
        = .ok
            [{ uuid := uuidStrOfHex (md5HexOfString "Steve"),
               name := some "Steve",
               dimensionId := ({ name := "N", position := "P", check := some "Q" } : DimensionsData).id,
               position := (.float (21 / 2), .int 5, .float (41 / 2)),
               color := DEFAULT_COLORS.getD
                 (md5NatOfString "Steve" % DEFAULT_COLORS.length) "",
               visible := false }] :=
  check_cell_absent_yields_invisible
    { name := "N", position := "P", check := some "Q" } "Steve"
    [intCell 10, intCell 5, intCell 20]
    (.float (21 / 2), .int 5, .float (41 / 2))
    (by decide)
    (by norm_num [form_location, intCell, CellData.numValue, centre_blocks])

end Papyrus
